import Mathlib

/-!
Verification of the Hermes Python client (`examples/python_client.py`).

The client is shallowly embedded: JSON values are an inductive type,
the network is an explicit state (a queue of outcomes the remote side
will produce, plus a log of requests issued), and each Python call is
a pure function from that state to a classified result and a new state.
The semantics of the `requests` library calls used by the client
(`requests.post`, `requests.get`, `Response.raise_for_status`,
`Response.json`) are embedded where the client's behavior depends on
them.
-/

namespace Hermes

/-- JSON values, the parse target of request and response bodies.
Numbers are modelled as integers, which covers every numeric field of
the wire contract (scheduler counts and byte totals). -/
inductive Json where
  | null : Json
  | bool : Bool → Json
  | num : Int → Json
  | str : String → Json
  | arr : List Json → Json
  | obj : List (String × Json) → Json


/-- Field access on a parsed JSON value, as Python subscripting `d[k]`
on a parsed dict: the value at key `k` when the value is an object
containing that key. -/
def Json.lookup : Json → String → Option Json
  | .obj fields, k => List.lookup k fields
  | _, _ => none

/-- An HTTP request as assembled by the client: method, absolute URL,
optional JSON body, the headers passed explicitly, and the timeout
argument handed to the `requests` call (seconds). -/
structure HttpRequest where
  method : String
  url : String
  body : Option Json
  headers : List (String × String)
  timeout : Nat


/-- An HTTP response as seen through the `requests` library: final
status code, reason phrase of the status line, final URL, and the body
abstracted by its JSON parse: `some j` when `response.json()` parses
the body text to `j`, `none` when the body is not valid JSON (in which
case `response.json()` raises a JSON decode error). -/
structure HttpResponse where
  status : Nat
  reason : String
  url : String
  body : Option Json


/-- Transport-level failures: conditions under which no HTTP response
is obtained at all. The `requests` library raises `ConnectionError`
(connection refused, DNS failure) or `Timeout` for these; none of
those exceptions carries a response or a status code. -/
inductive TransportError where
  | connectionRefused : TransportError
  | dnsFailure : TransportError
  | timeoutExpired : TransportError


/-- Outcome of one attempted HTTP exchange: either a response (of any
status code) or a transport failure with no response at all. -/
inductive HttpOutcome where
  | response : HttpResponse → HttpOutcome
  | transportError : TransportError → HttpOutcome


/-- The network, modelled as explicit state: the queue of outcomes the
remote side will give to successive requests, and the log of requests
issued so far. Every `requests.post` / `requests.get` call consumes
exactly one outcome and appends exactly one request to the log. -/
structure NetState where
  pending : List HttpOutcome
  log : List HttpRequest


/-- Issue one HTTP request: record it in the log and consume the next
pending outcome. An exhausted queue behaves as a refused connection,
so the model is total. -/
def doRequest (req : HttpRequest) (s : NetState) : HttpOutcome × NetState :=
  match s.pending with
  | [] => (.transportError .connectionRefused, ⟨[], s.log ++ [req]⟩)
  | o :: rest => (o, ⟨rest, s.log ++ [req]⟩)

/-- Result of one client call, covering the normal return and each kind
of exception the Python functions `generate` / `status` can raise:
- `success j`: the function returned `response.json() = j`;
- `httpError st msg b`: `response.raise_for_status()` raised
  `requests.HTTPError` for status code `st`, with exception message
  `msg`; the response (hence its body `b`) stays attached to the
  exception as `e.response`;
- `decodeError`: `response.json()` raised a JSON decode error because
  the body was not valid JSON;
- `transportFailure e`: the `requests` call itself raised a
  transport-level exception carrying no response. -/
inductive CallResult where
  | success : Json → CallResult
  | httpError : Nat → String → Option Json → CallResult
  | decodeError : CallResult
  | transportFailure : TransportError → CallResult


/-- The HTTP status code carried by a call result, when any: only an
`HTTPError` carries one (as `e.response.status_code`); transport
failures and decode errors carry no response and hence no status. -/
def CallResult.statusCode : CallResult → Option Nat
  | .httpError st _ _ => some st
  | _ => none

/-- `Response.raise_for_status` from the `requests` library: it raises
`HTTPError` exactly for status codes in [400, 500) with message
"<code> Client Error: <reason> for url: <url>" and in [500, 600) with
message "<code> Server Error: <reason> for url: <url>"; every other
status code (1xx, 2xx, 3xx) raises nothing. Returns the message of
the error raised, if any. -/
def raiseForStatus (r : HttpResponse) : Option String :=
  if 400 ≤ r.status ∧ r.status < 500 then
    some (toString r.status ++ " Client Error: " ++ r.reason ++ " for url: " ++ r.url)
  else if 500 ≤ r.status ∧ r.status < 600 then
    some (toString r.status ++ " Server Error: " ++ r.reason ++ " for url: " ++ r.url)
  else
    none

/-- The shared response-handling tail of both client calls, exactly as
in the source: `response.raise_for_status()` followed by
`return response.json()`. A transport failure propagates the raised
transport exception. -/
def handleOutcome : HttpOutcome → CallResult
  | .transportError e => .transportFailure e
  | .response r =>
    match raiseForStatus r with
    | some msg => .httpError r.status msg r.body
    | none =>
      match r.body with
      | some j => .success j
      | none => .decodeError

/-- The client object: it holds only the configured base URL
(`self.base_url`); there is no other state. -/
structure HermesClient where
  base_url : String


/-- Python `str.rstrip("/")`: remove every trailing '/' character. -/
def rstripSlash (s : String) : String :=
  String.mk ((s.data.reverse.dropWhile (fun c => c == '/')).reverse)

/-- `HermesClient.__init__`: stores `base_url.rstrip("/")`. The network
state is threaded through unchanged to express that construction
issues no request. -/
def HermesClient.init (base_url : String) (s : NetState) :
    HermesClient × NetState :=
  ({ base_url := rstripSlash base_url }, s)

/-- The request assembled by `generate`: an f-string URL
interpolating the model verbatim, a JSON payload holding the prompt,
an explicit Content-Type header and a 60-second timeout. -/
def generateRequest (c : HermesClient) (model prompt : String) : HttpRequest :=
  { method := "POST"
    url := c.base_url ++ "/v1/llm/" ++ model
    body := some (.obj [("prompt", .str prompt)])
    headers := [("Content-Type", "application/json")]
    timeout := 60 }

/-- The request assembled by `status`: a GET with no body, no explicit
headers and a 10-second timeout. -/
def statusRequest (c : HermesClient) : HttpRequest :=
  { method := "GET"
    url := c.base_url ++ "/v1/status"
    body := none
    headers := []
    timeout := 10 }

/-- `HermesClient.generate(model, prompt)`: one `requests.post` of the
assembled request, then `raise_for_status()` and `return
response.json()`. -/
def HermesClient.generate (c : HermesClient) (model prompt : String)
    (s : NetState) : CallResult × NetState :=
  let (o, s1) := doRequest (generateRequest c model prompt) s
  (handleOutcome o, s1)

/-- `HermesClient.status()`: one `requests.get` of the assembled
request, then `raise_for_status()` and `return response.json()`. -/
def HermesClient.status (c : HermesClient) (s : NetState) :
    CallResult × NetState :=
  let (o, s1) := doRequest (statusRequest c) s
  (handleOutcome o, s1)

/-- Number of occurrences of a character in a string, used to talk
about how many path segments a URL has. -/
def countChar (c : Char) (s : String) : Nat :=
  s.data.countP (fun x => x == c)

/-- Whether a call result is the raised `requests.HTTPError` (the
status-carrying error produced by `raise_for_status`). -/
def CallResult.isHttpError : CallResult → Bool
  | .httpError _ _ _ => true
  | _ => false

/-- The JSON value returned normally by a call, when the call did not
raise: `some j` exactly for a `success j` result. -/
def CallResult.returned : CallResult → Option Json
  | .success j => some j
  | _ => none

end Hermes

namespace Hermes

/-- Helper: one `requests` call appends exactly the issued request to
the log, whatever the network does. -/
theorem doRequest_log (req : HttpRequest) (s : NetState) :
    (doRequest req s).2.log = s.log ++ [req] := by
  unfold doRequest
  cases s.pending <;> rfl

/-- Helper: the log after a `generate` call. -/
theorem generate_log (c : HermesClient) (model prompt : String) (s : NetState) :
    (c.generate model prompt s).2.log = s.log ++ [generateRequest c model prompt] :=
  doRequest_log (generateRequest c model prompt) s

/-- Helper: the log after a `status` call. -/
theorem status_log (c : HermesClient) (s : NetState) :
    (c.status s).2.log = s.log ++ [statusRequest c] :=
  doRequest_log (statusRequest c) s

/-- Helper: a five-way concatenation with a non-empty second block is
non-empty. -/
theorem concat5_ne_empty (a b c d e : String) (hb : b.length ≠ 0) :
    a ++ b ++ c ++ d ++ e ≠ "" := by
  intro h
  have hlen : (a ++ b ++ c ++ d ++ e).length = 0 := by rw [h]; rfl
  simp only [String.length_append] at hlen
  omega

end Hermes

namespace Hermes

/-- C1: for every valid (model, prompt) pair, when the service responds
with HTTP 200 and body obj [("result", str x)], `generate` returns that
parsed body as a success, and its "result" field is the very string x —
unchanged, with no trimming and no reinterpretation. -/
theorem generate_success_result_exact
    (c : HermesClient) (model prompt x reason url : String)
    (rest : List HttpOutcome) (log : List HttpRequest)
    (hm : model ≠ "") (hp : prompt ≠ "") :
    ((c.generate model prompt
        ⟨.response ⟨200, reason, url, some (.obj [("result", .str x)])⟩ :: rest, log⟩).1
      = .success (.obj [("result", .str x)]))
    ∧ Json.lookup (.obj [("result", .str x)]) "result" = some (.str x) :=
  ⟨rfl, rfl⟩

/-- C1 witness: the theorem applied at concrete inputs. -/
theorem generate_success_result_exact_witness :
    ((HermesClient.generate ⟨"http://localhost:4020"⟩ "gemma" "hi"
        ⟨[.response ⟨200, "OK", "http://localhost:4020/v1/llm/gemma",
            some (.obj [("result", .str "X")])⟩], []⟩).1
      = .success (.obj [("result", .str "X")]))
    ∧ Json.lookup (.obj [("result", .str "X")]) "result" = some (.str "X") :=
  generate_success_result_exact ⟨"http://localhost:4020"⟩ "gemma" "hi" "X" "OK"
    "http://localhost:4020/v1/llm/gemma" [] [] (by decide) (by decide)

/-- C5: a transport failure (connection refused, DNS failure, timeout
expiry) surfaces from both calls as the transport-failure variant,
which carries no HTTP status code; the handling is uniform in the kind
of failure — expiry of the timeout is treated exactly like any other
transport failure — and exactly one request is issued, with no retry. -/
theorem transport_failure_no_status_no_retry
    (c : HermesClient) (model prompt : String) (e : TransportError)
    (rest : List HttpOutcome) (log : List HttpRequest) :
    ((c.generate model prompt ⟨.transportError e :: rest, log⟩).1 = .transportFailure e)
    ∧ ((c.generate model prompt ⟨.transportError e :: rest, log⟩).1.statusCode = none)
    ∧ ((c.generate model prompt ⟨.transportError e :: rest, log⟩).2.log
        = log ++ [generateRequest c model prompt])
    ∧ ((c.status ⟨.transportError e :: rest, log⟩).1 = .transportFailure e)
    ∧ ((c.status ⟨.transportError e :: rest, log⟩).1.statusCode = none)
    ∧ ((c.status ⟨.transportError e :: rest, log⟩).2.log = log ++ [statusRequest c]) :=
  ⟨rfl, rfl, rfl, rfl, rfl, rfl⟩

/-- C8: each call consumes exactly one network outcome and appends
exactly one request to the log — no automatic retries and no cache;
for two consecutive `status` calls, two requests are appended and the
second call's result is computed from the second outcome alone, never
a memoized copy of the first. -/
theorem one_request_per_call_no_memoization
    (c : HermesClient) (model prompt : String) (s : NetState)
    (o1 o2 : HttpOutcome) (rest : List HttpOutcome) (log : List HttpRequest) :
    ((c.generate model prompt s).2.log.length = s.log.length + 1)
    ∧ ((c.status s).2.log.length = s.log.length + 1)
    ∧ ((c.status ⟨o1 :: o2 :: rest, log⟩).1 = handleOutcome o1)
    ∧ ((c.status ((c.status ⟨o1 :: o2 :: rest, log⟩).2)).1 = handleOutcome o2)
    ∧ ((c.status ((c.status ⟨o1 :: o2 :: rest, log⟩).2)).2.log
        = log ++ [statusRequest c, statusRequest c]) := by
  refine ⟨?_, ?_, rfl, rfl, ?_⟩
  · rw [generate_log, List.length_append]; rfl
  · rw [status_log, List.length_append]; rfl
  · simp [status_log]

/-- Helper: counting a character distributes over concatenation. -/
theorem countChar_append (ch : Char) (a b : String) :
    countChar ch (a ++ b) = countChar ch a + countChar ch b := by
  simp [countChar, String.data_append, List.countP_append]

/-- C10: the model string is interpolated verbatim into the URL: the
request URL is literally base ++ "/v1/llm/" ++ model, with no escaping
and no emptiness check — the empty model still issues a POST, to
base ++ "/v1/llm/" — and the URL's '/'-count is the base's plus three
plus the model's, so any '/' inside the model adds path segments. -/
theorem model_interpolated_verbatim
    (c : HermesClient) (model prompt : String) (s : NetState) :
    ((generateRequest c model prompt).url = c.base_url ++ "/v1/llm/" ++ model)
    ∧ ((generateRequest c "" prompt).url = c.base_url ++ "/v1/llm/")
    ∧ ((c.generate "" prompt s).2.log = s.log ++ [generateRequest c "" prompt])
    ∧ (countChar '/' (generateRequest c model prompt).url
        = countChar '/' c.base_url + 3 + countChar '/' model) := by
  refine ⟨rfl, ?_, generate_log c "" prompt s, ?_⟩
  · show c.base_url ++ "/v1/llm/" ++ "" = c.base_url ++ "/v1/llm/"
    rw [String.append_empty]
  · show countChar '/' (c.base_url ++ "/v1/llm/" ++ model) = _
    have h3 : countChar '/' "/v1/llm/" = 3 := by decide
    rw [countChar_append, countChar_append, h3]

end Hermes

namespace Hermes

/-- C6: for every non-empty model and prompt, one `generate` call
issues exactly one request: an HTTP POST to base ++ "/v1/llm/" ++ model
carrying the JSON body obj [("prompt", str prompt)], the header
Content-Type: application/json, and the 60-second response bound. -/
theorem generate_request_shape
    (c : HermesClient) (model prompt : String) (s : NetState)
    (hm : model ≠ "") (hp : prompt ≠ "") :
    (c.generate model prompt s).2.log
      = s.log ++ [{ method := "POST", url := c.base_url ++ "/v1/llm/" ++ model,
                    body := some (.obj [("prompt", .str prompt)]),
                    headers := [("Content-Type", "application/json")],
                    timeout := 60 }] :=
  generate_log c model prompt s

/-- C6 witness: the theorem applied at concrete inputs. -/
theorem generate_request_shape_witness :
    (HermesClient.generate ⟨"http://localhost:4020"⟩ "gemma" "hi" ⟨[], []⟩).2.log
      = [] ++ [{ method := "POST",
                 url := "http://localhost:4020" ++ "/v1/llm/" ++ "gemma",
                 body := some (.obj [("prompt", .str "hi")]),
                 headers := [("Content-Type", "application/json")],
                 timeout := 60 }] :=
  generate_request_shape ⟨"http://localhost:4020"⟩ "gemma" "hi" ⟨[], []⟩
    (by decide) (by decide)

/-- C7: `status` issues exactly one HTTP GET to base ++ "/v1/status"
with no body, no extra headers and the 10-second deadline; on a 2xx
response whose body parses to j, the call returns j exactly as-is, so
the "memory" sub-object of the body reappears unchanged — passed
through structurally, with no field-by-field validation — in the
returned value. -/
theorem status_request_and_passthrough
    (c : HermesClient) (reason url : String) (st : Nat) (j m : Json)
    (rest : List HttpOutcome) (log : List HttpRequest)
    (h2 : 200 ≤ st) (h3 : st < 300) (hmem : Json.lookup j "memory" = some m) :
    ((c.status ⟨.response ⟨st, reason, url, some j⟩ :: rest, log⟩).2.log
      = log ++ [{ method := "GET", url := c.base_url ++ "/v1/status",
                  body := none, headers := [], timeout := 10 }])
    ∧ ((c.status ⟨.response ⟨st, reason, url, some j⟩ :: rest, log⟩).1 = .success j)
    ∧ (Json.lookup
        (((c.status ⟨.response ⟨st, reason, url, some j⟩ :: rest, log⟩).1.returned).getD .null)
        "memory" = some m) := by
  have h45 : ¬ (400 ≤ st ∧ st < 500) := by omega
  have h56 : ¬ (500 ≤ st ∧ st < 600) := by omega
  have hres : (c.status ⟨.response ⟨st, reason, url, some j⟩ :: rest, log⟩).1
      = .success j := by
    show handleOutcome (.response ⟨st, reason, url, some j⟩) = .success j
    simp [handleOutcome, raiseForStatus, h45, h56]
  refine ⟨status_log c _, hres, ?_⟩
  rw [hres]
  simpa [CallResult.returned] using hmem

/-- C7 witness: the theorem applied at the concrete body of the spec
scenario. -/
theorem status_request_and_passthrough_witness :
    ((HermesClient.status ⟨"http://localhost:4020"⟩
        ⟨[.response ⟨200, "OK", "http://localhost:4020/v1/status",
            some (.obj [("status", .str "ok"), ("schedulers", .num 2),
              ("memory", .obj [("total", .num 1048576)])])⟩], []⟩).2.log
      = [] ++ [{ method := "GET", url := "http://localhost:4020" ++ "/v1/status",
                 body := none, headers := [], timeout := 10 }])
    ∧ ((HermesClient.status ⟨"http://localhost:4020"⟩
        ⟨[.response ⟨200, "OK", "http://localhost:4020/v1/status",
            some (.obj [("status", .str "ok"), ("schedulers", .num 2),
              ("memory", .obj [("total", .num 1048576)])])⟩], []⟩).1
      = .success (.obj [("status", .str "ok"), ("schedulers", .num 2),
          ("memory", .obj [("total", .num 1048576)])]))
    ∧ (Json.lookup
        (((HermesClient.status ⟨"http://localhost:4020"⟩
          ⟨[.response ⟨200, "OK", "http://localhost:4020/v1/status",
              some (.obj [("status", .str "ok"), ("schedulers", .num 2),
                ("memory", .obj [("total", .num 1048576)])])⟩], []⟩).1.returned).getD .null)
        "memory" = some (.obj [("total", .num 1048576)])) :=
  status_request_and_passthrough ⟨"http://localhost:4020"⟩ "OK"
    "http://localhost:4020/v1/status" 200
    (.obj [("status", .str "ok"), ("schedulers", .num 2),
      ("memory", .obj [("total", .num 1048576)])])
    (.obj [("total", .num 1048576)]) [] [] (by decide) (by decide) rfl

/-- Helper: the first element surviving `dropWhile` fails the
predicate. -/
theorem head_dropWhile_false {α : Type} (p : α → Bool) :
    ∀ (l : List α) (x : α), (l.dropWhile p).head? = some x → p x = false := by
  intro l
  induction l with
  | nil =>
    intro x hx
    simp [List.dropWhile] at hx
  | cons a as ih =>
    intro x hx
    by_cases hpa : p a = true
    · rw [List.dropWhile_cons_of_pos hpa] at hx
      exact ih x hx
    · rw [List.dropWhile_cons_of_neg hpa] at hx
      simp at hx
      rw [← hx]
      simpa using hpa

/-- C9: construction stores the base address with every trailing '/'
character stripped — the stored value never ends in '/', and the input
address is exactly the stored value followed by a run of '/'
characters — and the network state is returned untouched: no request
is issued at construction time. -/
theorem init_strips_and_is_offline (u : String) (s : NetState) :
    ((HermesClient.init u s).1.base_url = rstripSlash u)
    ∧ ((HermesClient.init u s).2 = s)
    ∧ ((HermesClient.init u s).2.log = s.log)
    ∧ ((rstripSlash u).data.getLast? ≠ some '/')
    ∧ (∃ n, u = rstripSlash u ++ String.mk (List.replicate n '/')) := by
  refine ⟨rfl, rfl, rfl, ?_, ?_⟩
  · intro hlast
    have hhead : (u.data.reverse.dropWhile (fun c => c == '/')).head? = some '/' := by
      simpa [rstripSlash, List.getLast?_reverse] using hlast
    have hfalse := head_dropWhile_false (fun c => c == '/') u.data.reverse '/' hhead
    simp at hfalse
  · refine ⟨(u.data.reverse.takeWhile (fun c => c == '/')).length, ?_⟩
    have hsplit : u.data.reverse.takeWhile (fun c => c == '/')
        ++ u.data.reverse.dropWhile (fun c => c == '/') = u.data.reverse :=
      List.takeWhile_append_dropWhile _ _
    have hrep : u.data.reverse.takeWhile (fun c => c == '/')
        = List.replicate (u.data.reverse.takeWhile (fun c => c == '/')).length '/' := by
      apply List.eq_replicate_of_mem
      intro b hb
      have hbp := List.mem_takeWhile_imp hb
      simpa using hbp
    apply String.ext
    rw [String.data_append]
    show u.data
      = (u.data.reverse.dropWhile (fun c => c == '/')).reverse ++ List.replicate _ '/'
    conv_lhs => rw [← List.reverse_reverse u.data, ← hsplit]
    rw [List.reverse_append]
    congr 1
    rw [hrep, List.reverse_replicate]
    simp

end Hermes

namespace Hermes

/-- C2 counterexample: at HTTP 400 with body obj [("error", str "X")],
the error raised by `generate` carries the generic requests-generated
message "400 Client Error: Bad Request for url: ..." — not "X"; and at
the non-2xx status 304 with the same body no error is raised at all:
`generate` returns the body as a plain success. -/
theorem error_message_counterexample :
    ((HermesClient.generate ⟨"http://localhost:4020"⟩ "gemma" "hi"
        ⟨[.response ⟨400, "Bad Request", "http://localhost:4020/v1/llm/gemma",
            some (.obj [("error", .str "X")])⟩], []⟩).1
      = .httpError 400
          "400 Client Error: Bad Request for url: http://localhost:4020/v1/llm/gemma"
          (some (.obj [("error", .str "X")])))
    ∧ ("400 Client Error: Bad Request for url: http://localhost:4020/v1/llm/gemma"
        ≠ ("X" : String))
    ∧ ((HermesClient.generate ⟨"http://localhost:4020"⟩ "gemma" "hi"
        ⟨[.response ⟨304, "Not Modified", "http://localhost:4020/v1/llm/gemma",
            some (.obj [("error", .str "X")])⟩], []⟩).1
      = .success (.obj [("error", .str "X")])) :=
  ⟨rfl, by decide, rfl⟩

/-- C2 amended: for a response whose status is in [400, 600) and whose
body is obj [("error", str x)], `generate` and `status` raise the
HTTPError produced by `raise_for_status`: its status equals the
response's HTTP status code, and its message is the generic
requests-generated string — "<code> Client Error: <reason> for url:
<url>" below 500 and "<code> Server Error: ..." at 500 and above —
not the server-supplied x, which stays accessible only through the
response body attached to the error. -/
theorem http_error_status_and_generic_message
    (c : HermesClient) (model prompt x reason url m : String) (st : Nat)
    (rest : List HttpOutcome) (log : List HttpRequest)
    (h4 : 400 ≤ st) (h6 : st < 600)
    (hraise : raiseForStatus ⟨st, reason, url, some (.obj [("error", .str x)])⟩
      = some m) :
    ((c.generate model prompt
        ⟨.response ⟨st, reason, url, some (.obj [("error", .str x)])⟩ :: rest, log⟩).1
      = .httpError st m (some (.obj [("error", .str x)])))
    ∧ ((c.status
        ⟨.response ⟨st, reason, url, some (.obj [("error", .str x)])⟩ :: rest, log⟩).1
      = .httpError st m (some (.obj [("error", .str x)])))
    ∧ (st < 500 → m = toString st ++ " Client Error: " ++ reason ++ " for url: " ++ url)
    ∧ (500 ≤ st → m = toString st ++ " Server Error: " ++ reason ++ " for url: " ++ url)
    ∧ Json.lookup (.obj [("error", .str x)]) "error" = some (.str x) := by
  refine ⟨?_, ?_, ?_, ?_, rfl⟩
  · show handleOutcome (.response ⟨st, reason, url, some (.obj [("error", .str x)])⟩) = _
    simp [handleOutcome, hraise]
  · show handleOutcome (.response ⟨st, reason, url, some (.obj [("error", .str x)])⟩) = _
    simp [handleOutcome, hraise]
  · intro h5
    simp only [raiseForStatus] at hraise
    rw [if_pos ⟨h4, h5⟩] at hraise
    exact (Option.some_inj.mp hraise).symm
  · intro h5
    simp only [raiseForStatus] at hraise
    rw [if_neg (by omega), if_pos ⟨h5, h6⟩] at hraise
    exact (Option.some_inj.mp hraise).symm

/-- C2 amended witness: the theorem applied at HTTP 400 with reason
"Bad Request" and the server error message "X". -/
theorem http_error_status_and_generic_message_witness :
    ((HermesClient.generate ⟨"http://localhost:4020"⟩ "gemma" "hi"
        ⟨[.response ⟨400, "Bad Request", "u", some (.obj [("error", .str "X")])⟩], []⟩).1
      = .httpError 400 "400 Client Error: Bad Request for url: u"
          (some (.obj [("error", .str "X")])))
    ∧ ((HermesClient.status ⟨"http://localhost:4020"⟩
        ⟨[.response ⟨400, "Bad Request", "u", some (.obj [("error", .str "X")])⟩], []⟩).1
      = .httpError 400 "400 Client Error: Bad Request for url: u"
          (some (.obj [("error", .str "X")])))
    ∧ (400 < 500 → "400 Client Error: Bad Request for url: u"
        = toString 400 ++ " Client Error: " ++ "Bad Request" ++ " for url: " ++ "u")
    ∧ (500 ≤ 400 → "400 Client Error: Bad Request for url: u"
        = toString 400 ++ " Server Error: " ++ "Bad Request" ++ " for url: " ++ "u")
    ∧ Json.lookup (.obj [("error", .str "X")]) "error" = some (.str "X") :=
  http_error_status_and_generic_message ⟨"http://localhost:4020"⟩ "gemma" "hi" "X"
    "Bad Request" "u" "400 Client Error: Bad Request for url: u" 400 [] []
    (by decide) (by decide) rfl

/-- C3 counterexample: a non-2xx response (status 304) with an
unparseable body makes `generate` raise a JSON decode error — not the
status-carrying HTTPError: no classified ApiError with a status code
and a generic message results from this non-2xx response. -/
theorem non2xx_unparseable_counterexample :
    ((HermesClient.generate ⟨"http://localhost:4020"⟩ "gemma" "hi"
        ⟨[.response ⟨304, "Not Modified", "u", none⟩], []⟩).1 = .decodeError)
    ∧ ((HermesClient.generate ⟨"http://localhost:4020"⟩ "gemma" "hi"
        ⟨[.response ⟨304, "Not Modified", "u", none⟩], []⟩).1.isHttpError = false)
    ∧ ((HermesClient.generate ⟨"http://localhost:4020"⟩ "gemma" "hi"
        ⟨[.response ⟨304, "Not Modified", "u", none⟩], []⟩).1.statusCode = none) :=
  ⟨rfl, rfl, rfl⟩

/-- C3 amended: for every response with a 4xx or 5xx status — whatever
the body: unparseable, or parseable with or without an error field —
both `generate` and `status` raise the HTTPError with that status, the
body attached, and a non-empty generic message; the body is never
consulted on this path. Non-2xx statuses outside [400, 600), such as
304, are not classified as errors (see the counterexample). -/
theorem http_error_generic_always
    (c : HermesClient) (model prompt reason url m : String) (st : Nat)
    (b : Option Json) (rest : List HttpOutcome) (log : List HttpRequest)
    (h4 : 400 ≤ st) (h6 : st < 600)
    (hraise : raiseForStatus ⟨st, reason, url, b⟩ = some m) :
    ((c.generate model prompt ⟨.response ⟨st, reason, url, b⟩ :: rest, log⟩).1
      = .httpError st m b)
    ∧ ((c.status ⟨.response ⟨st, reason, url, b⟩ :: rest, log⟩).1 = .httpError st m b)
    ∧ m ≠ "" := by
  refine ⟨?_, ?_, ?_⟩
  · show handleOutcome (.response ⟨st, reason, url, b⟩) = _
    simp [handleOutcome, hraise]
  · show handleOutcome (.response ⟨st, reason, url, b⟩) = _
    simp [handleOutcome, hraise]
  · simp only [raiseForStatus] at hraise
    split at hraise
    · injection hraise with h
      subst h
      exact concat5_ne_empty _ _ _ _ _ (by decide)
    · split at hraise
      · injection hraise with h
        subst h
        exact concat5_ne_empty _ _ _ _ _ (by decide)
      · exact absurd hraise (by simp)

/-- C3 amended witness: the theorem applied at a 500 response with an
unparseable body. -/
theorem http_error_generic_always_witness :
    ((HermesClient.generate ⟨"http://localhost:4020"⟩ "gemma" "hi"
        ⟨[.response ⟨500, "Internal Server Error", "u", none⟩], []⟩).1
      = .httpError 500 "500 Server Error: Internal Server Error for url: u" none)
    ∧ ((HermesClient.status ⟨"http://localhost:4020"⟩
        ⟨[.response ⟨500, "Internal Server Error", "u", none⟩], []⟩).1
      = .httpError 500 "500 Server Error: Internal Server Error for url: u" none)
    ∧ ("500 Server Error: Internal Server Error for url: u" : String) ≠ "" :=
  http_error_generic_always ⟨"http://localhost:4020"⟩ "gemma" "hi"
    "Internal Server Error" "u" "500 Server Error: Internal Server Error for url: u"
    500 none [] [] (by decide) (by decide) rfl

/-- C4 counterexample: a 2xx response whose body is valid JSON but has
no "result" field is returned by `generate` as a plain success holding
that body unchanged — no protocol-violation failure is surfaced. -/
theorem missing_result_returned_counterexample :
    ((HermesClient.generate ⟨"http://localhost:4020"⟩ "gemma" "hi"
        ⟨[.response ⟨200, "OK", "u", some (.obj [])⟩], []⟩).1
      = .success (.obj []))
    ∧ Json.lookup (.obj []) "result" = none :=
  ⟨rfl, rfl⟩

/-- C4 amended: on a 2xx response whose body is not valid JSON,
`generate` raises a JSON decode error — a failure distinct from the
status-carrying HTTPError, with no status code — and never fabricates
a result; but on a 2xx response that parses to any JSON value j, it
returns j as-is without checking that a "result" field is present, so
a missing field is not detected by `generate` itself. -/
theorem twoxx_body_handling
    (c : HermesClient) (model prompt reason url : String) (st : Nat)
    (j : Json) (rest : List HttpOutcome) (log : List HttpRequest)
    (h2 : 200 ≤ st) (h3 : st < 300) :
    ((c.generate model prompt ⟨.response ⟨st, reason, url, none⟩ :: rest, log⟩).1
      = .decodeError)
    ∧ ((c.generate model prompt ⟨.response ⟨st, reason, url, some j⟩ :: rest, log⟩).1
      = .success j)
    ∧ (CallResult.decodeError.isHttpError = false)
    ∧ (CallResult.decodeError.statusCode = none) := by
  have h45 : ¬ (400 ≤ st ∧ st < 500) := by omega
  have h56 : ¬ (500 ≤ st ∧ st < 600) := by omega
  refine ⟨?_, ?_, rfl, rfl⟩
  · show handleOutcome (.response ⟨st, reason, url, none⟩) = _
    simp [handleOutcome, raiseForStatus, h45, h56]
  · show handleOutcome (.response ⟨st, reason, url, some j⟩) = _
    simp [handleOutcome, raiseForStatus, h45, h56]

/-- C4 amended witness: the theorem applied at a 200 response. -/
theorem twoxx_body_handling_witness :
    ((HermesClient.generate ⟨"http://localhost:4020"⟩ "gemma" "hi"
        ⟨[.response ⟨200, "OK", "u", none⟩], []⟩).1 = .decodeError)
    ∧ ((HermesClient.generate ⟨"http://localhost:4020"⟩ "gemma" "hi"
        ⟨[.response ⟨200, "OK", "u", some (.obj [("other", .bool true)])⟩], []⟩).1
      = .success (.obj [("other", .bool true)]))
    ∧ (CallResult.decodeError.isHttpError = false)
    ∧ (CallResult.decodeError.statusCode = none) :=
  twoxx_body_handling ⟨"http://localhost:4020"⟩ "gemma" "hi" "OK" "u" 200
    (.obj [("other", .bool true)]) [] [] (by decide) (by decide)

end Hermes
